import Mathlib

/-!
Verification of the pretenst-blender importers.

The repository contains two Blender add-ons that import "Pretenst"
tensegrity structures, one from JSON (`blender_import_json.py`) and one
from semicolon-delimited CSV tables (`blender_import_pretenst.py`, with a
standalone variant of the CSV parsing in `pretenst_util.py`).  This file
gives a shallow embedding of the parsing and placement logic of those
files and proves properties about it.

Modelling conventions:
* Python `str` is modelled as `List Char`.
* Python `float` values are modelled as real numbers; textual numerals
  are parsed into rationals (exact in the decimal fragment the inputs
  use) which are cast into `ℝ` at the geometry boundary.
* Python exceptions are modelled with `Except` / `Option`: a function
  that can raise returns `Except ε α`, and raising aborts the caller.
* Host (Blender) state that the code reads — the prototype objects, their
  `track_axis` strings, their baseline scales, and the "Joint" prototype
  scale — is passed in as a `PrototypeScene` record of total functions.
* The call `track_axis.rotation_difference(intv_arrow)` goes to the
  external mathutils library, which is total (it returns a quaternion for
  every pair of input vectors and raises nothing); since no verified
  property constrains the resulting quaternion, the rotation field of a
  placed node records the pair of arguments handed to that routine.
-/

/-- Python strings are modelled as lists of characters. -/
abbrev PyStr := List Char

/-- Python `s.replace(old, new)` for single-character `old`/`new`:
replaces every occurrence of `old` by `new`. -/
def strReplace (s : PyStr) (old new : Char) : PyStr :=
  s.map fun c => if c = old then new else c

/-- Python `s.replace(old, "")` for a single-character `old`: removes
every occurrence of `old`. -/
def strRemove (s : PyStr) (old : Char) : PyStr :=
  s.filter fun c => c != old

/-- Value of a list of decimal digit characters. -/
def digitsToNat (ds : List Char) : ℕ :=
  ds.foldl (fun n c => 10 * n + (c.toNat - 48)) 0

/-- Modelled: the Python builtin `int(s)` on optionally signed decimal
numerals (whitespace, underscores and other bases are not modelled;
the inputs of interest are plain digit strings).  `none` models the
`ValueError` raised on malformed input. -/
def pyInt (s : PyStr) : Option Int :=
  match s with
  | '-' :: ds =>
      if ds ≠ [] ∧ ds.all Char.isDigit then some (-(digitsToNat ds : Int)) else none
  | _ =>
      if s ≠ [] ∧ s.all Char.isDigit then some ((digitsToNat s : Int)) else none

/-- Unsigned decimal numeral, with an optional dot-separated fractional
part, evaluated exactly as a rational. -/
def parseDecimal (s : PyStr) : Option ℚ :=
  match s.splitOn '.' with
  | [ip] =>
      if ip ≠ [] ∧ ip.all Char.isDigit then some ((digitsToNat ip : ℚ)) else none
  | [ip, fp] =>
      if (ip ≠ [] ∨ fp ≠ []) ∧ ip.all Char.isDigit ∧ fp.all Char.isDigit then
        some ((digitsToNat ip : ℚ) + (digitsToNat fp : ℚ) / (10 : ℚ) ^ fp.length)
      else none
  | _ => none

/-- Modelled: the Python builtin `float(s)` on optionally signed decimal
numerals (exponents, `inf`/`nan` and whitespace are not modelled; the
CSV fields of interest are plain decimal numerals).  `none` models the
`ValueError` raised on malformed input. -/
def pyFloat (s : PyStr) : Option ℚ :=
  match s with
  | '-' :: rest => (parseDecimal rest).map (fun q => -q)
  | '+' :: rest => parseDecimal rest
  | _ => parseDecimal s

/-- `float_comma(s)` from `blender_import_pretenst.py` (line 33) and,
identically, `pretenst_util.py` (line 26): `float(s.replace(',', '.'))`. -/
def float_comma (s : PyStr) : Option ℚ :=
  pyFloat (strReplace s ',' '.')

/-- A 3-vector with exact rational components, used for parsed data. -/
structure QVec3 where
  x : ℚ
  y : ℚ
  z : ℚ
deriving DecidableEq

/-- A 3-vector with real components, used for the placement geometry. -/
structure RVec3 where
  x : ℝ
  y : ℝ
  z : ℝ

/-- Cast a parsed rational vector into the real-valued geometry. -/
def toR (v : QVec3) : RVec3 :=
  ⟨(v.x : ℝ), (v.y : ℝ), (v.z : ℝ)⟩

/-- Componentwise difference, `a - b` on mathutils vectors. -/
def RVec3.sub (a b : RVec3) : RVec3 :=
  ⟨a.x - b.x, a.y - b.y, a.z - b.z⟩

/-- Componentwise sum, `a + b` on mathutils vectors. -/
def RVec3.add (a b : RVec3) : RVec3 :=
  ⟨a.x + b.x, a.y + b.y, a.z + b.z⟩

/-- Scalar multiple, `c * v` on mathutils vectors. -/
def RVec3.smul (c : ℝ) (v : RVec3) : RVec3 :=
  ⟨c * v.x, c * v.y, c * v.z⟩

/-- Componentwise product; models the three statements
`node.scale.x *= delta.x` (and `.y`, `.z`) applied to a baseline scale. -/
def RVec3.cmul (a b : RVec3) : RVec3 :=
  ⟨a.x * b.x, a.y * b.y, a.z * b.z⟩

/-- mathutils `a.lerp(b, t)`: linear interpolation. -/
def RVec3.lerp (a b : RVec3) (t : ℝ) : RVec3 :=
  ⟨a.x + (b.x - a.x) * t, a.y + (b.y - a.y) * t, a.z + (b.z - a.z) * t⟩

/-- Euclidean dot product. -/
def RVec3.dot (a b : RVec3) : ℝ :=
  a.x * b.x + a.y * b.y + a.z * b.z

/-- mathutils `v.length`: the Euclidean magnitude. -/
noncomputable def RVec3.length (v : RVec3) : ℝ :=
  Real.sqrt (v.x ^ 2 + v.y ^ 2 + v.z ^ 2)

/-- Modelled: the Python `math.sqrt`, which raises
`ValueError: math domain error` on negative input (modelled by `none`)
and returns the nonnegative square root otherwise. -/
noncomputable def mathSqrt (x : ℝ) : Option ℝ :=
  if x < 0 then none else some (Real.sqrt x)

/-- Errors raised while loading a structure.  Python raises `ValueError`
for malformed numerals and failed tuple unpacking (`formatError`),
`KeyError` for a joint-dictionary lookup miss — the condition the spec's
taxonomy names `ReferenceError` (`referenceError`) — and `IndexError`
for an out-of-range JSON `joints` array access (`indexError`). -/
inductive LoadError where
  | formatError
  | referenceError
  | indexError
deriving DecidableEq

/-- Errors raised while placing one interval: `valueError` is the
`ValueError` of `track_axis_to_vector` on an unknown axis encoding, and
`mathDomainError` is the `ValueError: math domain error` of `math.sqrt`
on a negative argument. -/
inductive PlaceError where
  | valueError
  | mathDomainError
deriving DecidableEq

/-- `track_axis_to_vector` from `blender_import_pretenst.py` (lines
85-92) and, identically, `blender_import_json.py` (lines 32-39): maps
the three positive-axis encodings to unit vectors and raises
`ValueError` (modelled by `none`) on everything else. -/
def track_axis_to_vector (track_axis : PyStr) : Option RVec3 :=
  if track_axis = "POS_X".data then some ⟨1, 0, 0⟩
  else if track_axis = "POS_Y".data then some ⟨0, 1, 0⟩
  else if track_axis = "POS_Z".data then some ⟨0, 0, 1⟩
  else none

/-- The host scene state read by `create_interval_node`:
`track_axis_of t` is `prototype_scene.objects[t].track_axis`,
`base_scale_of t` is the baseline `prototype_scene.objects[t].scale`,
and `joint_scale_x` is `prototype_scene.objects["Joint"].scale.x`.
Object lookup is host state and is modelled as total. -/
structure PrototypeScene where
  track_axis_of : PyStr → PyStr
  base_scale_of : PyStr → RVec3
  joint_scale_x : ℝ

/-- The transform fields `create_interval_node` writes onto the copied
prototype object.  `rotation` records the argument pair handed to the
external (total) mathutils call
`track_axis.rotation_difference(intv_arrow)`. -/
structure IntervalNode where
  location : RVec3
  rotation : RVec3 × RVec3
  scale : RVec3

/-- Whether an `Except` computation succeeded. -/
def exceptIsOk {ε α : Type} : Except ε α → Bool
  | Except.ok _ => true
  | Except.error _ => false

/-- The location of a successfully placed node, `none` on failure. -/
def nodeLocation {ε : Type} : Except ε IntervalNode → Option RVec3
  | Except.ok n => some n.location
  | Except.error _ => none

/-- The endpoint index pair of a successfully parsed interval record,
extracted by the `idxa`/`idxo` projections; `none` on failure. -/
def endpointIndexes {ε α : Type} (idxa idxo : α → Int) : Except ε α → Option (Int × Int)
  | Except.ok iv => some (idxa iv, idxo iv)
  | Except.error _ => none

/-- Python `enumerate(xs, start)`. -/
def pyEnumerate {α : Type} (start : ℕ) : List α → List (ℕ × α)
  | [] => []
  | a :: as => (start, a) :: pyEnumerate (start + 1) as

/-- A Python list comprehension whose element expression can raise:
elements are produced left to right and the first raise aborts the
whole comprehension. -/
def mapExcept {α β ε : Type} (f : α → Except ε β) : List α → Except ε (List β)
  | [] => Except.ok []
  | a :: as =>
    match f a with
    | Except.error e => Except.error e
    | Except.ok b =>
      match mapExcept f as with
      | Except.error e => Except.error e
      | Except.ok bs => Except.ok (b :: bs)

/-- Lines 48-49 of `blender_import_pretenst.py` (and lines 40-41 of
`pretenst_util.py`): strip `=` and `"` from the `joints` column, split
on `,`, and tuple-unpack into exactly two parts (a count other than two
raises `ValueError`, modelled by `none`). -/
def split_joints (joints_field : PyStr) : Option (PyStr × PyStr) :=
  match (strRemove (strRemove joints_field '=') '"').splitOn ',' with
  | [alpha_idx, omega_idx] => some (alpha_idx, omega_idx)
  | _ => none

/-- The joints-column decoder: the cleaning/splitting of `split_joints`
followed by the `int()` calls applied to the two parts at their use
sites. -/
def decode_joints (joints_field : PyStr) : Option (Int × Int) :=
  match split_joints joints_field with
  | none => none
  | some (alpha_idx, omega_idx) =>
    match pyInt alpha_idx, pyInt omega_idx with
    | some a, some b => some (a, b)
    | _, _ => none

namespace ImportPretenst

/-- The `Joint` dataclass of `blender_import_pretenst.py`. -/
structure Joint where
  index : Int
  co : QVec3
deriving DecidableEq

/-- The `Interval` dataclass of `blender_import_pretenst.py`; `index`
is assigned from the enumeration position during load. -/
structure Interval where
  index : ℕ
  alpha : Joint
  omega : Joint
  type : PyStr
  strain : ℚ
  elasticity : ℚ
  linear_density : ℚ
  role : PyStr
  length : ℚ
deriving DecidableEq

/-- One row of `joints.csv` as produced by the CSV reader: the raw
string fields keyed by the header.  File reading itself is host I/O and
is modelled by passing the row list. -/
structure JointCsvRow where
  index : PyStr
  x : PyStr
  y : PyStr
  z : PyStr
deriving DecidableEq

/-- One row of `intervals.csv` as produced by the CSV reader. -/
structure IntervalCsvRow where
  joints : PyStr
  type : PyStr
  strain : PyStr
  elasticity : PyStr
  linear_density : PyStr
  role : PyStr
  length : PyStr
deriving DecidableEq

/-- `joint_csv_to_dataclass` (lines 36-44): parse `x`, `y`, `z` with
`float_comma`, then `index` with `int`. -/
def joint_csv_to_dataclass (joint_csv : JointCsvRow) : Except LoadError Joint :=
  match float_comma joint_csv.x with
  | none => Except.error LoadError.formatError
  | some x =>
    match float_comma joint_csv.y with
    | none => Except.error LoadError.formatError
    | some y =>
      match float_comma joint_csv.z with
      | none => Except.error LoadError.formatError
      | some z =>
        match pyInt joint_csv.index with
        | none => Except.error LoadError.formatError
        | some i => Except.ok { index := i, co := ⟨x, y, z⟩ }

/-- The dict comprehension over the joint list: lookups find the last
joint bearing the index (a later duplicate overwrites an earlier one). -/
def joints_dict (joints : List Joint) (key : Int) : Option Joint :=
  joints.reverse.find? fun j => j.index == key

/-- `interval_csv_to_dataclass` (lines 47-60), with Python's evaluation
order: clean and unpack the `joints` column, then for each endpoint
parse the index and look it up (a lookup miss is the spec's
`ReferenceError`), then parse the numeric fields. -/
def interval_csv_to_dataclass (index : ℕ) (interval_csv : IntervalCsvRow)
    (jdict : Int → Option Joint) : Except LoadError Interval :=
  match split_joints interval_csv.joints with
  | none => Except.error LoadError.formatError
  | some (alpha_idx, omega_idx) =>
    match pyInt alpha_idx with
    | none => Except.error LoadError.formatError
    | some ai =>
      match jdict ai with
      | none => Except.error LoadError.referenceError
      | some alpha =>
        match pyInt omega_idx with
        | none => Except.error LoadError.formatError
        | some oi =>
          match jdict oi with
          | none => Except.error LoadError.referenceError
          | some omega =>
            match float_comma interval_csv.strain with
            | none => Except.error LoadError.formatError
            | some strain =>
              match float_comma interval_csv.elasticity with
              | none => Except.error LoadError.formatError
              | some elasticity =>
                match float_comma interval_csv.linear_density with
                | none => Except.error LoadError.formatError
                | some ld =>
                  match float_comma interval_csv.length with
                  | none => Except.error LoadError.formatError
                  | some len =>
                    Except.ok { index := index, alpha := alpha, omega := omega,
                                type := interval_csv.type, strain := strain,
                                elasticity := elasticity, linear_density := ld,
                                role := interval_csv.role, length := len }

/-- `load_pretenst_from_csv` (lines 70-81) on the two row lists: parse
all joints, build the index dictionary, then parse the enumerated
interval rows.  Any raise aborts the whole load. -/
def load_pretenst_from_csv (joints_csv : List JointCsvRow)
    (intervals_csv : List IntervalCsvRow) :
    Except LoadError (List Interval × List Joint) :=
  match mapExcept joint_csv_to_dataclass joints_csv with
  | Except.error e => Except.error e
  | Except.ok joints =>
    match mapExcept (fun p => interval_csv_to_dataclass p.1 p.2 (joints_dict joints))
        (pyEnumerate 0 intervals_csv) with
    | Except.error e => Except.error e
    | Except.ok intervals => Except.ok (intervals, joints)

/-- `create_interval_node` (lines 95-127), keeping the source's order of
effects: convert the prototype's track axis (may raise), compute the
midpoint location and the rotation arguments, take `math.sqrt` of the
elasticity (may raise), and combine the diameter and length terms into
the scale multiplied onto the prototype's baseline scale.  Lines
116-120 subtract twice the joint radius from the length for the
`"Push"` type only. -/
noncomputable def create_interval_node (intv : Interval) (scene : PrototypeScene) :
    Except PlaceError IntervalNode :=
  let alpha := intv.alpha
  let omega := intv.omega
  let intv_arrow := RVec3.sub (toR omega.co) (toR alpha.co)
  match track_axis_to_vector (scene.track_axis_of intv.type) with
  | none => Except.error PlaceError.valueError
  | some track_axis =>
    let location := RVec3.lerp (toR alpha.co) (toR omega.co) (1 / 2)
    let rotation := (track_axis, intv_arrow)
    match mathSqrt ((intv.elasticity : ℝ)) with
    | none => Except.error PlaceError.mathDomainError
    | some root =>
      let diameter_coeff := root * 200
      let diameter_delta := RVec3.smul diameter_coeff (RVec3.sub ⟨1, 1, 1⟩ track_axis)
      let intv_length :=
        if intv.type = "Push".data then intv_arrow.length - 2 * scene.joint_scale_x
        else intv_arrow.length
      let length_delta := RVec3.smul intv_length track_axis
      let scale_delta := RVec3.add diameter_delta length_delta
      Except.ok { location := location, rotation := rotation,
                  scale := RVec3.cmul (scene.base_scale_of intv.type) scale_delta }

end ImportPretenst

namespace ImportJson

/-- The `Joint` dataclass of `blender_import_json.py`. -/
structure Joint where
  index : Int
  co : QVec3
deriving DecidableEq

/-- The `Interval` dataclass of `blender_import_json.py` (`stiffness`
in place of the CSV pipeline's `elasticity`). -/
structure Interval where
  index : ℕ
  alpha : Joint
  omega : Joint
  type : PyStr
  strain : ℚ
  stiffness : ℚ
  linear_density : ℚ
  role : PyStr
  length : ℚ
deriving DecidableEq

/-- One JSON joint object (`index`, `x`, `y`, `z`); JSON numbers are
modelled as rationals. -/
structure JointDict where
  index : Int
  x : ℚ
  y : ℚ
  z : ℚ
deriving DecidableEq

/-- One JSON interval object: `joints` is the array of endpoint
indices, the remaining fields are the camelCase JSON attributes. -/
structure IntervalDict where
  joints : List Int
  type : PyStr
  strain : ℚ
  stiffness : ℚ
  linearDensity : ℚ
  role : PyStr
  length : ℚ
deriving DecidableEq

/-- A parsed JSON document: the `joints` and `intervals` arrays. -/
structure Fabric where
  joints : List JointDict
  intervals : List IntervalDict
deriving DecidableEq

/-- `joint_dict_to_dataclass` (lines 91-98). -/
def joint_dict_to_dataclass (joint_dict : JointDict) : Joint :=
  { index := joint_dict.index, co := ⟨joint_dict.x, joint_dict.y, joint_dict.z⟩ }

/-- The dict comprehension over the joint list (last duplicate wins). -/
def joints_dict (joints : List Joint) (key : Int) : Option Joint :=
  joints.reverse.find? fun j => j.index == key

/-- `interval_dict_to_dataclass` (lines 100-112), with Python's
evaluation order: index the `joints` array (an out-of-range access
raises `IndexError`) and look each endpoint up in the joint dictionary
(a miss is the spec's `ReferenceError`). -/
def interval_dict_to_dataclass (index : ℕ) (interval_dict : IntervalDict)
    (jdict : Int → Option Joint) : Except LoadError Interval :=
  match interval_dict.joints.get? 0 with
  | none => Except.error LoadError.indexError
  | some j0 =>
    match jdict j0 with
    | none => Except.error LoadError.referenceError
    | some alpha =>
      match interval_dict.joints.get? 1 with
      | none => Except.error LoadError.indexError
      | some j1 =>
        match jdict j1 with
        | none => Except.error LoadError.referenceError
        | some omega =>
          Except.ok { index := index, alpha := alpha, omega := omega,
                      type := interval_dict.type, strain := interval_dict.strain,
                      stiffness := interval_dict.stiffness,
                      linear_density := interval_dict.linearDensity,
                      role := interval_dict.role, length := interval_dict.length }

/-- `load_pretenst_from_json` (lines 115-127) on a parsed document:
convert the joints, build the dictionary, and convert the enumerated
interval objects; any raise aborts the whole load. -/
def load_pretenst_from_json (fabric : Fabric) :
    Except LoadError (List Interval × List Joint) :=
  let joints := fabric.joints.map joint_dict_to_dataclass
  match mapExcept (fun p => interval_dict_to_dataclass p.1 p.2 (joints_dict joints))
      (pyEnumerate 0 fabric.intervals) with
  | Except.error e => Except.error e
  | Except.ok intervals => Except.ok (intervals, joints)

/-- `create_interval_node` (lines 49-77): identical to the CSV
pipeline's placement except that the length term uses the raw
`intv_arrow.length` — there is no `"Push"` branch and no joint-radius
inset in this file. -/
noncomputable def create_interval_node (intv : Interval) (scene : PrototypeScene) :
    Except PlaceError IntervalNode :=
  let alpha := intv.alpha
  let omega := intv.omega
  let intv_arrow := RVec3.sub (toR omega.co) (toR alpha.co)
  match track_axis_to_vector (scene.track_axis_of intv.type) with
  | none => Except.error PlaceError.valueError
  | some track_axis =>
    let location := RVec3.lerp (toR alpha.co) (toR omega.co) (1 / 2)
    let rotation := (track_axis, intv_arrow)
    match mathSqrt ((intv.stiffness : ℝ)) with
    | none => Except.error PlaceError.mathDomainError
    | some root =>
      let diameter_coeff := root * 200
      let diameter_delta := RVec3.smul diameter_coeff (RVec3.sub ⟨1, 1, 1⟩ track_axis)
      let length_delta := RVec3.smul intv_arrow.length track_axis
      let scale_delta := RVec3.add diameter_delta length_delta
      Except.ok { location := location, rotation := rotation,
                  scale := RVec3.cmul (scene.base_scale_of intv.type) scale_delta }

end ImportJson

/-! Concrete fixtures used by the closed theorems. -/

/-- A host scene whose prototypes all track the x axis, have unit
baseline scale, and whose "Joint" prototype has scale.x = 1. -/
def protoSceneX : PrototypeScene :=
  { track_axis_of := fun _ => "POS_X".data
    base_scale_of := fun _ => ⟨1, 1, 1⟩
    joint_scale_x := 1 }

/-- A host scene whose prototypes all track the z axis. -/
def protoSceneZ : PrototypeScene :=
  { track_axis_of := fun _ => "POS_Z".data
    base_scale_of := fun _ => ⟨1, 1, 1⟩
    joint_scale_x := 1 }

/-- CSV-pipeline strut from (0,0,0) to (10,0,0) with elasticity 1. -/
def csvPushIntv : ImportPretenst.Interval :=
  { index := 0, alpha := ⟨0, ⟨0, 0, 0⟩⟩, omega := ⟨1, ⟨10, 0, 0⟩⟩,
    type := "Push".data, strain := 0, elasticity := 1, linear_density := 1,
    role := "NexusPush".data, length := 10 }

/-- JSON-pipeline strut from (0,0,0) to (10,0,0) with stiffness 1. -/
def jsonPushIntv : ImportJson.Interval :=
  { index := 0, alpha := ⟨0, ⟨0, 0, 0⟩⟩, omega := ⟨1, ⟨10, 0, 0⟩⟩,
    type := "Push".data, strain := 0, stiffness := 1, linear_density := 1,
    role := "NexusPush".data, length := 10 }

/-- JSON-pipeline cable from (0,0,0) to (0,0,8) with stiffness 4. -/
def jsonZIntv : ImportJson.Interval :=
  { index := 0, alpha := ⟨0, ⟨0, 0, 0⟩⟩, omega := ⟨1, ⟨0, 0, 8⟩⟩,
    type := "Pull".data, strain := 0, stiffness := 4, linear_density := 1,
    role := "Triangle".data, length := 8 }

/-- CSV-pipeline cable whose two joints coincide at the origin. -/
def csvDegenIntv : ImportPretenst.Interval :=
  { index := 0, alpha := ⟨0, ⟨0, 0, 0⟩⟩, omega := ⟨1, ⟨0, 0, 0⟩⟩,
    type := "Pull".data, strain := 0, elasticity := 1, linear_density := 1,
    role := "Triangle".data, length := 0 }

/-- JSON-pipeline cable whose two joints coincide at the origin. -/
def jsonDegenIntv : ImportJson.Interval :=
  { index := 0, alpha := ⟨0, ⟨0, 0, 0⟩⟩, omega := ⟨1, ⟨0, 0, 0⟩⟩,
    type := "Pull".data, strain := 0, stiffness := 1, linear_density := 1,
    role := "Triangle".data, length := 0 }

/-- CSV-pipeline interval with negative elasticity. -/
def csvNegIntv : ImportPretenst.Interval :=
  { index := 0, alpha := ⟨0, ⟨0, 0, 0⟩⟩, omega := ⟨1, ⟨10, 0, 0⟩⟩,
    type := "Pull".data, strain := 0, elasticity := -1, linear_density := 1,
    role := "Triangle".data, length := 10 }

/-- JSON-pipeline interval with negative stiffness. -/
def jsonNegIntv : ImportJson.Interval :=
  { index := 0, alpha := ⟨0, ⟨0, 0, 0⟩⟩, omega := ⟨1, ⟨10, 0, 0⟩⟩,
    type := "Pull".data, strain := 0, stiffness := -1, linear_density := 1,
    role := "Triangle".data, length := 10 }

/-- A `joints.csv` row for joint 3 at the origin. -/
def jointRow3 : ImportPretenst.JointCsvRow :=
  { index := "3".data, x := "0".data, y := "0".data, z := "0".data }

/-- An `intervals.csv` row whose two endpoint indices are both 3. -/
def ivRow33 : ImportPretenst.IntervalCsvRow :=
  { joints := "=\"3,3\"".data, type := "Push".data, strain := "0".data,
    elasticity := "1".data, linear_density := "1".data,
    role := "NexusPush".data, length := "10".data }

/-- An `intervals.csv` row referencing the joint pair (2,9). -/
def ivRow29 : ImportPretenst.IntervalCsvRow :=
  { joints := "=\"2,9\"".data, type := "Pull".data, strain := "0".data,
    elasticity := "1".data, linear_density := "1".data,
    role := "Triangle".data, length := "10".data }

/-- The loaded joint set with indices 1, 2 and 3. -/
def joints123 : List ImportPretenst.Joint :=
  [⟨1, ⟨0, 0, 0⟩⟩, ⟨2, ⟨1, 0, 0⟩⟩, ⟨3, ⟨0, 1, 0⟩⟩]

/-- A JSON fabric with one joint (index 3) and two intervals both
spanning (3,3). -/
def fabric2 : ImportJson.Fabric :=
  { joints := [⟨3, 0, 0, 0⟩]
    intervals :=
      [ { joints := [3, 3], type := "Push".data, strain := 0, stiffness := 1,
          linearDensity := 1, role := "NexusPush".data, length := 10 },
        { joints := [3, 3], type := "Pull".data, strain := 0, stiffness := 1,
          linearDensity := 1, role := "Triangle".data, length := 10 } ] }

/-- The node the CSV pipeline produces for `csvPushIntv` in
`protoSceneX`: long axis inset to 8, diameter axes 200. -/
def csvPushNode : IntervalNode :=
  { location := ⟨5, 0, 0⟩, rotation := (⟨1, 0, 0⟩, ⟨10, 0, 0⟩), scale := ⟨8, 200, 200⟩ }

/-- The node the JSON pipeline produces for `jsonPushIntv` in
`protoSceneX`: long axis at the full span length 10 (no inset). -/
def jsonPushNode : IntervalNode :=
  { location := ⟨5, 0, 0⟩, rotation := (⟨1, 0, 0⟩, ⟨10, 0, 0⟩), scale := ⟨10, 200, 200⟩ }

/-- The node the JSON pipeline produces for `jsonZIntv` in
`protoSceneZ`: diameter axes 400 (stiffness 4), long axis 8. -/
def jsonZNode : IntervalNode :=
  { location := ⟨0, 0, 4⟩, rotation := (⟨0, 0, 1⟩, ⟨0, 0, 8⟩), scale := ⟨400, 400, 8⟩ }

/-- The loaded joint set with indices 3 and 7. -/
def joints37 : List ImportPretenst.Joint :=
  [⟨3, ⟨0, 0, 0⟩⟩, ⟨7, ⟨1, 0, 0⟩⟩]

/-- An `intervals.csv` row referencing the joint pair (3,7). -/
def ivRow37 : ImportPretenst.IntervalCsvRow :=
  { joints := "=\"3,7\"".data, type := "Pull".data, strain := "0".data,
    elasticity := "1".data, linear_density := "1".data,
    role := "Triangle".data, length := "1".data }

/-- The joint parsed from `jointRow3`. -/
def loadedJ3 : ImportPretenst.Joint := ⟨3, ⟨0, 0, 0⟩⟩

/-- The interval parsed from `ivRow33` at sequence position `k`. -/
def loadedIv (k : ℕ) : ImportPretenst.Interval :=
  { index := k, alpha := loadedJ3, omega := loadedJ3, type := "Push".data,
    strain := 0, elasticity := 1, linear_density := 1,
    role := "NexusPush".data, length := 10 }

/-- The joint converted from the single joint object of `fabric2`. -/
def loadedJv3 : ImportJson.Joint := ⟨3, ⟨0, 0, 0⟩⟩

/-- The first interval converted from `fabric2`. -/
def loadedIvJ0 : ImportJson.Interval :=
  { index := 0, alpha := loadedJv3, omega := loadedJv3, type := "Push".data,
    strain := 0, stiffness := 1, linear_density := 1,
    role := "NexusPush".data, length := 10 }

/-- The second interval converted from `fabric2`. -/
def loadedIvJ1 : ImportJson.Interval :=
  { index := 1, alpha := loadedJv3, omega := loadedJv3, type := "Pull".data,
    strain := 0, stiffness := 1, linear_density := 1,
    role := "Triangle".data, length := 10 }

/-! Helper lemmas. -/

theorem strReplace_append (a b : PyStr) (o n : Char) :
    strReplace (a ++ b) o n = strReplace a o n ++ strReplace b o n :=
  List.map_append _ a b

theorem strReplace_eq_self (s : PyStr) (o n : Char) (h : o ∉ s) :
    strReplace s o n = s := by
  unfold strReplace
  induction s with
  | nil => rfl
  | cons c cs ih =>
    rw [List.mem_cons, not_or] at h
    rw [List.map_cons, ih h.2, if_neg (fun hco => h.1 hco.symm)]

theorem comma_not_mem_of_digits (s : PyStr) (h : s.all Char.isDigit) : ',' ∉ s := by
  intro hm
  have h2 : Char.isDigit ',' = true := List.all_eq_true.mp h ',' hm
  exact absurd h2 (by decide)

theorem mapExcept_ok_length {α β ε : Type} (f : α → Except ε β) :
    ∀ (l : List α) (bs : List β), mapExcept f l = Except.ok bs → bs.length = l.length := by
  intro l
  induction l with
  | nil =>
    intro bs h
    simp only [mapExcept, Except.ok.injEq] at h
    rw [← h]
    rfl
  | cons a as ih =>
    intro bs h
    unfold mapExcept at h
    cases hfa : f a with
    | error e => rw [hfa] at h; exact absurd h (by simp)
    | ok b =>
      rw [hfa] at h
      cases hrest : mapExcept f as with
      | error e => rw [hrest] at h; exact absurd h (by simp)
      | ok bs2 =>
        rw [hrest] at h
        simp only [Except.ok.injEq] at h
        rw [← h]
        simp [ih bs2 hrest]

theorem mapExcept_ok_mem {α β ε : Type} (f : α → Except ε β) :
    ∀ (l : List α) (bs : List β), mapExcept f l = Except.ok bs →
      ∀ b ∈ bs, ∃ a ∈ l, f a = Except.ok b := by
  intro l
  induction l with
  | nil =>
    intro bs h b hb
    simp only [mapExcept, Except.ok.injEq] at h
    rw [← h] at hb
    exact absurd hb (by simp)
  | cons a as ih =>
    intro bs h b hb
    unfold mapExcept at h
    cases hfa : f a with
    | error e => rw [hfa] at h; exact absurd h (by simp)
    | ok b0 =>
      rw [hfa] at h
      cases hrest : mapExcept f as with
      | error e => rw [hrest] at h; exact absurd h (by simp)
      | ok bs2 =>
        rw [hrest] at h
        simp only [Except.ok.injEq] at h
        rw [← h] at hb
        rcases List.mem_cons.mp hb with hb0 | hb2
        · exact ⟨a, List.mem_cons_self a as, by rw [hfa, hb0]⟩
        · obtain ⟨a2, ha2, hfa2⟩ := ih bs2 hrest b hb2
          exact ⟨a2, List.mem_cons_of_mem a ha2, hfa2⟩

theorem mapExcept_enum_index {α β ε : Type} (f : ℕ × α → Except ε β) (idx : β → ℕ)
    (hf : ∀ p b, f p = Except.ok b → idx b = p.1) :
    ∀ (l : List α) (n : ℕ) (bs : List β),
      mapExcept f (pyEnumerate n l) = Except.ok bs →
      ∀ i (h : i < bs.length), idx (bs.get ⟨i, h⟩) = n + i := by
  intro l
  induction l with
  | nil =>
    intro n bs h i hi
    simp only [pyEnumerate, mapExcept, Except.ok.injEq] at h
    rw [← h] at hi
    exact absurd hi (by simp)
  | cons a as ih =>
    intro n bs h i hi
    unfold pyEnumerate mapExcept at h
    cases hfa : f (n, a) with
    | error e => rw [hfa] at h; exact absurd h (by simp)
    | ok b =>
      rw [hfa] at h
      cases hrest : mapExcept f (pyEnumerate (n + 1) as) with
      | error e => rw [hrest] at h; exact absurd h (by simp)
      | ok bs2 =>
        rw [hrest] at h
        simp only [Except.ok.injEq] at h
        subst h
        cases i with
        | zero => simpa using hf (n, a) b hfa
        | succ j =>
          have hj : j < bs2.length := by
            simpa using Nat.lt_of_succ_lt_succ hi
          have := ih (n + 1) bs2 hrest j hj
          simp only [List.get_cons_succ]
          exact this.trans (by omega)


theorem track_axis_cases (s : PyStr) (v : RVec3) (h : track_axis_to_vector s = some v) :
    v = ⟨1, 0, 0⟩ ∨ v = ⟨0, 1, 0⟩ ∨ v = ⟨0, 0, 1⟩ := by
  unfold track_axis_to_vector at h
  split_ifs at h
  · exact Or.inl (Option.some.inj h).symm
  · exact Or.inr (Or.inl (Option.some.inj h).symm)
  · exact Or.inr (Or.inr (Option.some.inj h).symm)

theorem ImportPretenst.create_eq_ok_csv (intv : Interval) (scene : PrototypeScene) (v : RVec3)
    (hv : track_axis_to_vector (scene.track_axis_of intv.type) = some v)
    (hel : ¬ ((intv.elasticity : ℝ) < 0)) :
    create_interval_node intv scene = Except.ok
      { location := RVec3.lerp (toR intv.alpha.co) (toR intv.omega.co) (1 / 2)
        rotation := (v, RVec3.sub (toR intv.omega.co) (toR intv.alpha.co))
        scale := RVec3.cmul (scene.base_scale_of intv.type)
          (RVec3.add
            (RVec3.smul (Real.sqrt (intv.elasticity : ℝ) * 200) (RVec3.sub ⟨1, 1, 1⟩ v))
            (RVec3.smul
              (if intv.type = "Push".data
               then (RVec3.sub (toR intv.omega.co) (toR intv.alpha.co)).length -
                  2 * scene.joint_scale_x
               else (RVec3.sub (toR intv.omega.co) (toR intv.alpha.co)).length)
              v)) } := by
  unfold create_interval_node
  rw [hv]
  unfold mathSqrt
  rw [if_neg hel]

theorem ImportPretenst.create_eq_error_csv (intv : Interval) (scene : PrototypeScene) (v : RVec3)
    (hv : track_axis_to_vector (scene.track_axis_of intv.type) = some v)
    (hel : (intv.elasticity : ℝ) < 0) :
    create_interval_node intv scene = Except.error PlaceError.mathDomainError := by
  unfold create_interval_node
  rw [hv]
  unfold mathSqrt
  rw [if_pos hel]

theorem ImportJson.create_eq_ok_json (intv : Interval) (scene : PrototypeScene) (v : RVec3)
    (hv : track_axis_to_vector (scene.track_axis_of intv.type) = some v)
    (hst : ¬ ((intv.stiffness : ℝ) < 0)) :
    create_interval_node intv scene = Except.ok
      { location := RVec3.lerp (toR intv.alpha.co) (toR intv.omega.co) (1 / 2)
        rotation := (v, RVec3.sub (toR intv.omega.co) (toR intv.alpha.co))
        scale := RVec3.cmul (scene.base_scale_of intv.type)
          (RVec3.add
            (RVec3.smul (Real.sqrt (intv.stiffness : ℝ) * 200) (RVec3.sub ⟨1, 1, 1⟩ v))
            (RVec3.smul (RVec3.sub (toR intv.omega.co) (toR intv.alpha.co)).length v)) } := by
  unfold create_interval_node
  rw [hv]
  unfold mathSqrt
  rw [if_neg hst]

theorem ImportJson.create_eq_error_json (intv : Interval) (scene : PrototypeScene) (v : RVec3)
    (hv : track_axis_to_vector (scene.track_axis_of intv.type) = some v)
    (hst : (intv.stiffness : ℝ) < 0) :
    create_interval_node intv scene = Except.error PlaceError.mathDomainError := by
  unfold create_interval_node
  rw [hv]
  unfold mathSqrt
  rw [if_pos hst]

theorem ImportPretenst.joints_dict_mem_csv (js : List Joint) (k : Int) (j : Joint)
    (h : joints_dict js k = some j) : j ∈ js :=
  List.mem_reverse.mp (List.mem_of_find?_eq_some h)

theorem ImportJson.joints_dict_mem_json (js : List Joint) (k : Int) (j : Joint)
    (h : joints_dict js k = some j) : j ∈ js :=
  List.mem_reverse.mp (List.mem_of_find?_eq_some h)

theorem ImportPretenst.interval_ok_elim_csv (k : ℕ) (row : IntervalCsvRow)
    (jdict : Int → Option Joint) (iv : Interval)
    (h : interval_csv_to_dataclass k row jdict = Except.ok iv) :
    iv.index = k ∧ (∃ a, jdict a = some iv.alpha) ∧ ∃ o, jdict o = some iv.omega := by
  unfold interval_csv_to_dataclass at h
  cases hsp : split_joints row.joints with
  | none => simp only [hsp] at h; exact absurd h (by simp)
  | some p =>
    obtain ⟨ax, ox⟩ := p
    simp only [hsp] at h
    cases hai : pyInt ax with
    | none => simp only [hai] at h; exact absurd h (by simp)
    | some ai =>
      simp only [hai] at h
      cases hda : jdict ai with
      | none => simp only [hda] at h; exact absurd h (by simp)
      | some alpha =>
        simp only [hda] at h
        cases hoi : pyInt ox with
        | none => simp only [hoi] at h; exact absurd h (by simp)
        | some oi =>
          simp only [hoi] at h
          cases hdo : jdict oi with
          | none => simp only [hdo] at h; exact absurd h (by simp)
          | some omega =>
            simp only [hdo] at h
            cases hs : float_comma row.strain with
            | none => simp only [hs] at h; exact absurd h (by simp)
            | some st =>
              simp only [hs] at h
              cases he : float_comma row.elasticity with
              | none => simp only [he] at h; exact absurd h (by simp)
              | some el =>
                simp only [he] at h
                cases hl : float_comma row.linear_density with
                | none => simp only [hl] at h; exact absurd h (by simp)
                | some ld =>
                  simp only [hl] at h
                  cases hn : float_comma row.length with
                  | none => simp only [hn] at h; exact absurd h (by simp)
                  | some len =>
                    simp only [hn] at h
                    simp only [Except.ok.injEq] at h
                    subst h
                    exact ⟨rfl, ⟨ai, hda⟩, ⟨oi, hdo⟩⟩

theorem ImportJson.interval_ok_elim_json (k : ℕ) (d : IntervalDict)
    (jdict : Int → Option Joint) (iv : Interval)
    (h : interval_dict_to_dataclass k d jdict = Except.ok iv) :
    iv.index = k ∧ (∃ a, jdict a = some iv.alpha) ∧ ∃ o, jdict o = some iv.omega := by
  unfold interval_dict_to_dataclass at h
  cases h0 : d.joints.get? 0 with
  | none => simp only [h0] at h; exact absurd h (by simp)
  | some j0 =>
    simp only [h0] at h
    cases hda : jdict j0 with
    | none => simp only [hda] at h; exact absurd h (by simp)
    | some alpha =>
      simp only [hda] at h
      cases h1 : d.joints.get? 1 with
      | none => simp only [h1] at h; exact absurd h (by simp)
      | some j1 =>
        simp only [h1] at h
        cases hdo : jdict j1 with
        | none => simp only [hdo] at h; exact absurd h (by simp)
        | some omega =>
          simp only [hdo] at h
          simp only [Except.ok.injEq] at h
          subst h
          exact ⟨rfl, ⟨j0, hda⟩, ⟨j1, hdo⟩⟩

theorem pyEnumerate_length {α : Type} :
    ∀ (n : ℕ) (l : List α), (pyEnumerate n l).length = l.length := by
  intro n l
  induction l generalizing n with
  | nil => rfl
  | cons a as ih => simp [pyEnumerate, ih]

theorem sqrt_four : Real.sqrt 4 = 2 := by
  rw [show (4 : ℝ) = 2 ^ 2 by norm_num, Real.sqrt_sq (by norm_num : (0 : ℝ) ≤ 2)]

theorem sqrt_sixtyfour : Real.sqrt 64 = 8 := by
  rw [show (64 : ℝ) = 8 ^ 2 by norm_num, Real.sqrt_sq (by norm_num : (0 : ℝ) ≤ 8)]

theorem sqrt_hundred : Real.sqrt 100 = 10 := by
  rw [show (100 : ℝ) = 10 ^ 2 by norm_num, Real.sqrt_sq (by norm_num : (0 : ℝ) ≤ 10)]

theorem csvPush_eval :
    ImportPretenst.create_interval_node csvPushIntv protoSceneX = Except.ok csvPushNode := by
  have h := ImportPretenst.create_eq_ok_csv csvPushIntv protoSceneX ⟨1, 0, 0⟩ rfl
    (by norm_num [csvPushIntv])
  rw [h]
  simp only [Except.ok.injEq, csvPushNode, csvPushIntv, protoSceneX, toR,
    RVec3.lerp, RVec3.sub, RVec3.add, RVec3.smul, RVec3.cmul, RVec3.length,
    IntervalNode.mk.injEq, RVec3.mk.injEq, Prod.mk.injEq]
  norm_num [Real.sqrt_one, sqrt_hundred]

theorem jsonPush_eval :
    ImportJson.create_interval_node jsonPushIntv protoSceneX = Except.ok jsonPushNode := by
  have h := ImportJson.create_eq_ok_json jsonPushIntv protoSceneX ⟨1, 0, 0⟩ rfl
    (by norm_num [jsonPushIntv])
  rw [h]
  simp only [Except.ok.injEq, jsonPushNode, jsonPushIntv, protoSceneX, toR,
    RVec3.lerp, RVec3.sub, RVec3.add, RVec3.smul, RVec3.cmul, RVec3.length,
    IntervalNode.mk.injEq, RVec3.mk.injEq, Prod.mk.injEq]
  norm_num [Real.sqrt_one, sqrt_hundred]

theorem jsonZ_eval :
    ImportJson.create_interval_node jsonZIntv protoSceneZ = Except.ok jsonZNode := by
  have h := ImportJson.create_eq_ok_json jsonZIntv protoSceneZ ⟨0, 0, 1⟩ rfl
    (by norm_num [jsonZIntv])
  rw [h]
  simp only [Except.ok.injEq, jsonZNode, jsonZIntv, protoSceneZ, toR,
    RVec3.lerp, RVec3.sub, RVec3.add, RVec3.smul, RVec3.cmul, RVec3.length,
    IntervalNode.mk.injEq, RVec3.mk.injEq, Prod.mk.injEq]
  norm_num [sqrt_four, sqrt_sixtyfour]

theorem csvDegen_eval :
    ImportPretenst.create_interval_node csvDegenIntv protoSceneX = Except.ok
      { location := ⟨0, 0, 0⟩, rotation := (⟨1, 0, 0⟩, ⟨0, 0, 0⟩),
        scale := ⟨0, 200, 200⟩ } := by
  have h := ImportPretenst.create_eq_ok_csv csvDegenIntv protoSceneX ⟨1, 0, 0⟩ rfl
    (by norm_num [csvDegenIntv])
  rw [h]
  simp only [Except.ok.injEq, csvDegenIntv, protoSceneX, toR,
    RVec3.lerp, RVec3.sub, RVec3.add, RVec3.smul, RVec3.cmul, RVec3.length,
    IntervalNode.mk.injEq, RVec3.mk.injEq, Prod.mk.injEq]
  norm_num [Real.sqrt_one, Real.sqrt_zero]
  decide

theorem jsonDegen_eval :
    ImportJson.create_interval_node jsonDegenIntv protoSceneX = Except.ok
      { location := ⟨0, 0, 0⟩, rotation := (⟨1, 0, 0⟩, ⟨0, 0, 0⟩),
        scale := ⟨0, 200, 200⟩ } := by
  have h := ImportJson.create_eq_ok_json jsonDegenIntv protoSceneX ⟨1, 0, 0⟩ rfl
    (by norm_num [jsonDegenIntv])
  rw [h]
  simp only [Except.ok.injEq, jsonDegenIntv, protoSceneX, toR,
    RVec3.lerp, RVec3.sub, RVec3.add, RVec3.smul, RVec3.cmul, RVec3.length,
    IntervalNode.mk.injEq, RVec3.mk.injEq, Prod.mk.injEq]
  norm_num [Real.sqrt_one, Real.sqrt_zero]

/-! The claims. -/

/-- C7 (confirmed): a numeral written with a comma as decimal separator
parses through `float_comma` to the same value as the dot-separated
spelling parsed by the plain float parser, and a comma-free digit
numeral is untouched by the normalization, so its parsed value is
unchanged. -/
theorem float_comma_normalization (a b s : PyStr)
    (ha : a.all Char.isDigit) (hb : b.all Char.isDigit) (hs : s.all Char.isDigit) :
    float_comma (a ++ ',' :: b) = pyFloat (a ++ '.' :: b) ∧
    float_comma s = pyFloat s := by
  constructor
  · unfold float_comma
    congr 1
    rw [show a ++ ',' :: b = a ++ [','] ++ b by simp]
    rw [strReplace_append, strReplace_append]
    rw [strReplace_eq_self a ',' '.' (comma_not_mem_of_digits a ha),
        strReplace_eq_self b ',' '.' (comma_not_mem_of_digits b hb)]
    simp [strReplace]
  · unfold float_comma
    rw [strReplace_eq_self s ',' '.' (comma_not_mem_of_digits s hs)]

/-- Witness for C7 at the numerals 12,5 / 12.5 and 42. -/
theorem float_comma_normalization_witness :
    float_comma (('1' :: '2' :: []) ++ ',' :: '5' :: []) =
      pyFloat (('1' :: '2' :: []) ++ '.' :: '5' :: []) ∧
    float_comma ('4' :: '2' :: []) = pyFloat ('4' :: '2' :: []) :=
  float_comma_normalization ('1' :: '2' :: []) ('5' :: []) ('4' :: '2' :: [])
    (by decide) (by decide) (by decide)

/-- C8 (confirmed): the joints-column decoder maps the encodings
with a leading equals sign and quotes, with quotes only, and the bare
pair to the endpoint index pair (3,7), by stripping the equals sign and
quote characters and splitting on the comma; fed through the full row
parser against joints 3 and 7 it resolves those two endpoints, and the
comma-to-dot decimal normalization plays no part in this column (the
split consumes the comma). -/
theorem joint_pair_decoding :
    decode_joints "=\"3,7\"".data = some (3, 7) ∧
    decode_joints "\"3,7\"".data = some (3, 7) ∧
    decode_joints "3,7".data = some (3, 7) ∧
    split_joints "=\"3,7\"".data = some ("3".data, "7".data) ∧
    endpointIndexes (fun iv => iv.alpha.index) (fun iv => iv.omega.index)
      (ImportPretenst.interval_csv_to_dataclass 0 ivRow37
        (ImportPretenst.joints_dict joints37)) = some (3, 7) := by
  refine ⟨by decide, by decide, by decide, by decide, ?_⟩
  rfl

/-- C6 counterexample: the conversion of the signed basis encoding
NEG_X fails with the fatal ValueError instead of succeeding, so the
claim that all signed and unsigned standard basis encodings convert is
false on the code. -/
theorem track_axis_neg_fails : track_axis_to_vector "NEG_X".data = none := rfl

/-- C6 (amended, corrected): conversion succeeds exactly for the three
positive-axis encodings POS_X, POS_Y and POS_Z, which map to the unit
basis vectors; every other encoding, including the signed NEG forms,
fails with the fatal ValueError. -/
theorem track_axis_domain (s : PyStr) :
    ((track_axis_to_vector s).isSome = true ↔
      (s = "POS_X".data ∨ s = "POS_Y".data ∨ s = "POS_Z".data)) ∧
    track_axis_to_vector "POS_X".data = some ⟨1, 0, 0⟩ ∧
    track_axis_to_vector "POS_Y".data = some ⟨0, 1, 0⟩ ∧
    track_axis_to_vector "POS_Z".data = some ⟨0, 0, 1⟩ := by
  refine ⟨⟨?_, ?_⟩, rfl, rfl, rfl⟩
  · intro h
    by_cases h1 : s = "POS_X".data
    · exact Or.inl h1
    by_cases h2 : s = "POS_Y".data
    · exact Or.inr (Or.inl h2)
    by_cases h3 : s = "POS_Z".data
    · exact Or.inr (Or.inr h3)
    exfalso
    unfold track_axis_to_vector at h
    rw [if_neg h1, if_neg h2, if_neg h3] at h
    exact absurd h (by simp)
  · intro h
    rcases h with h | h | h <;> subst h <;> rfl

/-- Witness for C6 at the encoding NEG_Y: the characterization shows it
is outside the successful domain. -/
theorem track_axis_domain_witness :
    (((track_axis_to_vector "NEG_Y".data).isSome = true ↔
      ("NEG_Y".data = "POS_X".data ∨ "NEG_Y".data = "POS_Y".data ∨
        "NEG_Y".data = "POS_Z".data)) ∧
    track_axis_to_vector "POS_X".data = some ⟨1, 0, 0⟩ ∧
    track_axis_to_vector "POS_Y".data = some ⟨0, 1, 0⟩ ∧
    track_axis_to_vector "POS_Z".data = some ⟨0, 0, 1⟩) :=
  track_axis_domain "NEG_Y".data

theorem ImportPretenst.load_ok_resolved_csv (jrows : List JointCsvRow)
    (irows : List IntervalCsvRow) (ivs : List Interval) (js : List Joint)
    (h : load_pretenst_from_csv jrows irows = Except.ok (ivs, js)) :
    ∀ iv ∈ ivs, iv.alpha ∈ js ∧ iv.omega ∈ js := by
  unfold load_pretenst_from_csv at h
  cases hj : mapExcept joint_csv_to_dataclass jrows with
  | error e => exact absurd (by simp only [hj] at h; exact h) (by simp)
  | ok js0 =>
    simp only [hj] at h
    cases hi : mapExcept (fun p => interval_csv_to_dataclass p.1 p.2 (joints_dict js0))
        (pyEnumerate 0 irows) with
    | error e => exact absurd (by simp only [hi] at h; exact h) (by simp)
    | ok ivs0 =>
      simp only [hi, Except.ok.injEq, Prod.mk.injEq] at h
      obtain ⟨h1, h2⟩ := h
      subst h1
      subst h2
      intro iv hiv
      obtain ⟨p, _, hok⟩ := mapExcept_ok_mem _ _ _ hi iv hiv
      obtain ⟨_, ⟨a, ha⟩, ⟨o, ho⟩⟩ := interval_ok_elim_csv p.1 p.2 _ iv hok
      exact ⟨joints_dict_mem_csv _ _ _ ha, joints_dict_mem_csv _ _ _ ho⟩

theorem ImportJson.load_ok_resolved_json (fabric : Fabric)
    (ivs : List Interval) (js : List Joint)
    (h : load_pretenst_from_json fabric = Except.ok (ivs, js)) :
    ∀ iv ∈ ivs, iv.alpha ∈ js ∧ iv.omega ∈ js := by
  unfold load_pretenst_from_json at h
  cases hi : mapExcept (fun p => interval_dict_to_dataclass p.1 p.2
      (joints_dict (fabric.joints.map joint_dict_to_dataclass)))
      (pyEnumerate 0 fabric.intervals) with
  | error e => exact absurd (by simp only [hi] at h; exact h) (by simp)
  | ok ivs0 =>
    simp only [hi, Except.ok.injEq, Prod.mk.injEq] at h
    obtain ⟨h1, h2⟩ := h
    subst h1
    subst h2
    intro iv hiv
    obtain ⟨p, _, hok⟩ := mapExcept_ok_mem _ _ _ hi iv hiv
    obtain ⟨_, ⟨a, ha⟩, ⟨o, ho⟩⟩ := interval_ok_elim_json p.1 p.2 _ iv hok
    exact ⟨joints_dict_mem_json _ _ _ ha, joints_dict_mem_json _ _ _ ho⟩

/-- C3 (confirmed): an interval row whose (well-formed) endpoint
reference misses the loaded joint dictionary fails with the reference
error — and since any row failure aborts the enumerated conversion, the
load returns no partial structure — while a successful load of either
pipeline resolves every interval endpoint to a member of the returned
joint list. -/
theorem reference_integrity (k : ℕ) (row : ImportPretenst.IntervalCsvRow)
    (js : List ImportPretenst.Joint) (ax ox : PyStr) (ai oi : Int)
    (hsp : split_joints row.joints = some (ax, ox))
    (hai : pyInt ax = some ai) (hoi : pyInt ox = some oi)
    (hmiss : ImportPretenst.joints_dict js ai = none ∨
      ImportPretenst.joints_dict js oi = none) :
    ImportPretenst.interval_csv_to_dataclass k row (ImportPretenst.joints_dict js) =
      Except.error LoadError.referenceError ∧
    (∀ jrows irows ivs outjs,
      ImportPretenst.load_pretenst_from_csv jrows irows = Except.ok (ivs, outjs) →
      ∀ iv ∈ ivs, iv.alpha ∈ outjs ∧ iv.omega ∈ outjs) ∧
    (∀ fabric ivs outjs,
      ImportJson.load_pretenst_from_json fabric = Except.ok (ivs, outjs) →
      ∀ iv ∈ ivs, iv.alpha ∈ outjs ∧ iv.omega ∈ outjs) := by
  refine ⟨?_, ?_, ?_⟩
  · unfold ImportPretenst.interval_csv_to_dataclass
    rcases hmiss with hm | hm
    · simp only [hsp, hai, hm]
    · cases hda : ImportPretenst.joints_dict js ai with
      | none => simp only [hsp, hai, hda]
      | some alpha => simp only [hsp, hai, hda, hoi, hm]
  · intro jrows irows ivs outjs h
    exact ImportPretenst.load_ok_resolved_csv jrows irows ivs outjs h
  · intro fabric ivs outjs h
    exact ImportJson.load_ok_resolved_json fabric ivs outjs h

/-- Witness for C3 at the spec's example: joints 1, 2, 3 and an
interval row referencing (2,9). -/
theorem reference_integrity_witness :
    ImportPretenst.interval_csv_to_dataclass 0 ivRow29
      (ImportPretenst.joints_dict joints123) =
      Except.error LoadError.referenceError :=
  (reference_integrity 0 ivRow29 joints123 "2".data "9".data 2 9
    (by decide) (by decide) (by decide) (Or.inr (by decide))).1

theorem ImportPretenst.load_ok_intervals_csv (jrows : List JointCsvRow)
    (irows : List IntervalCsvRow) (ivs : List Interval) (js : List Joint)
    (h : load_pretenst_from_csv jrows irows = Except.ok (ivs, js)) :
    mapExcept (fun p => interval_csv_to_dataclass p.1 p.2 (joints_dict js))
      (pyEnumerate 0 irows) = Except.ok ivs := by
  unfold load_pretenst_from_csv at h
  cases hj : mapExcept joint_csv_to_dataclass jrows with
  | error e => exact absurd (by simp only [hj] at h; exact h) (by simp)
  | ok js0 =>
    simp only [hj] at h
    cases hi : mapExcept (fun p => interval_csv_to_dataclass p.1 p.2 (joints_dict js0))
        (pyEnumerate 0 irows) with
    | error e => exact absurd (by simp only [hi] at h; exact h) (by simp)
    | ok ivs0 =>
      simp only [hi, Except.ok.injEq, Prod.mk.injEq] at h
      obtain ⟨h1, h2⟩ := h
      subst h1
      subst h2
      exact hi

theorem ImportJson.load_ok_intervals_json (fabric : Fabric)
    (ivs : List Interval) (js : List Joint)
    (h : load_pretenst_from_json fabric = Except.ok (ivs, js)) :
    mapExcept (fun p => interval_dict_to_dataclass p.1 p.2
        (joints_dict (fabric.joints.map joint_dict_to_dataclass)))
      (pyEnumerate 0 fabric.intervals) = Except.ok ivs := by
  unfold load_pretenst_from_json at h
  cases hi : mapExcept (fun p => interval_dict_to_dataclass p.1 p.2
      (joints_dict (fabric.joints.map joint_dict_to_dataclass)))
      (pyEnumerate 0 fabric.intervals) with
  | error e => exact absurd (by simp only [hi] at h; exact h) (by simp)
  | ok ivs0 =>
    simp only [hi, Except.ok.injEq, Prod.mk.injEq] at h
    obtain ⟨h1, h2⟩ := h
    subst h1
    rfl

/-- C9 (confirmed): a successful load of either pipeline returns one
interval per input row, and the `index` field of the interval at
position i of the result is exactly i — the 0-based enumeration
position, independent of the row contents. -/
theorem interval_index_stability
    (jrows : List ImportPretenst.JointCsvRow) (irows : List ImportPretenst.IntervalCsvRow)
    (ivsP : List ImportPretenst.Interval) (jsP : List ImportPretenst.Joint)
    (fabric : ImportJson.Fabric) (ivsJ : List ImportJson.Interval)
    (jsJ : List ImportJson.Joint) (iP iJ : ℕ)
    (hokP : ImportPretenst.load_pretenst_from_csv jrows irows = Except.ok (ivsP, jsP))
    (hokJ : ImportJson.load_pretenst_from_json fabric = Except.ok (ivsJ, jsJ))
    (hiP : iP < ivsP.length) (hiJ : iJ < ivsJ.length) :
    ivsP.length = irows.length ∧ (ivsP.get ⟨iP, hiP⟩).index = iP ∧
    ivsJ.length = fabric.intervals.length ∧ (ivsJ.get ⟨iJ, hiJ⟩).index = iJ := by
  have hP := ImportPretenst.load_ok_intervals_csv jrows irows ivsP jsP hokP
  have hJ := ImportJson.load_ok_intervals_json fabric ivsJ jsJ hokJ
  refine ⟨?_, ?_, ?_, ?_⟩
  · rw [mapExcept_ok_length _ _ _ hP, pyEnumerate_length]
  · have := mapExcept_enum_index _ (fun iv => iv.index)
      (fun p b hb => (ImportPretenst.interval_ok_elim_csv p.1 p.2 _ b hb).1)
      irows 0 ivsP hP iP hiP
    simpa using this
  · rw [mapExcept_ok_length _ _ _ hJ, pyEnumerate_length]
  · have := mapExcept_enum_index _ (fun iv => iv.index)
      (fun p b hb => (ImportJson.interval_ok_elim_json p.1 p.2 _ b hb).1)
      fabric.intervals 0 ivsJ hJ iJ hiJ
    simpa using this

/-- Witness for C9: a two-row CSV load and a two-interval JSON load
carry indices 0 and 1 in order. -/
theorem interval_index_stability_witness :
    ([loadedIv 0, loadedIv 1].length = [ivRow33, ivRow33].length) ∧
    (([loadedIv 0, loadedIv 1].get ⟨1, by decide⟩).index = 1) ∧
    ([loadedIvJ0, loadedIvJ1].length = fabric2.intervals.length) ∧
    (([loadedIvJ0, loadedIvJ1].get ⟨1, by decide⟩).index = 1) :=
  interval_index_stability [jointRow3] [ivRow33, ivRow33]
    [loadedIv 0, loadedIv 1] [loadedJ3] fabric2 [loadedIvJ0, loadedIvJ1]
    [loadedJv3] 1 1 rfl rfl (by decide) (by decide)

/-- C5 counterexample: a joints table containing joint 3 and an
interval row whose joints column encodes (3,3) load successfully, and
the loaded interval has alpha.index = omega.index, violating the
claimed invariant. -/
theorem equal_endpoints_cex :
    ImportPretenst.load_pretenst_from_csv [jointRow3] [ivRow33] =
      Except.ok ([loadedIv 0], [loadedJ3]) ∧
    (loadedIv 0).alpha.index = (loadedIv 0).omega.index :=
  ⟨rfl, rfl⟩

/-- C5 (amended, corrected): the loaders resolve both endpoints against
the joint set but never compare them, so a row whose two endpoint
indices are equal (and present) is not rejected: it parses to an
interval whose alpha and omega are the very same joint. -/
theorem equal_endpoints_not_rejected (k : ℕ) (row : ImportPretenst.IntervalCsvRow)
    (jdict : Int → Option ImportPretenst.Joint) (ax ox : PyStr) (i : Int)
    (j : ImportPretenst.Joint) (st el ld len : ℚ)
    (hsp : split_joints row.joints = some (ax, ox))
    (hax : pyInt ax = some i) (hox : pyInt ox = some i)
    (hd : jdict i = some j)
    (hs : float_comma row.strain = some st)
    (he : float_comma row.elasticity = some el)
    (hl : float_comma row.linear_density = some ld)
    (hn : float_comma row.length = some len) :
    ImportPretenst.interval_csv_to_dataclass k row jdict = Except.ok
      { index := k, alpha := j, omega := j, type := row.type, strain := st,
        elasticity := el, linear_density := ld, role := row.role, length := len } ∧
    endpointIndexes (fun iv => iv.alpha.index) (fun iv => iv.omega.index)
      (ImportPretenst.interval_csv_to_dataclass k row jdict) = some (j.index, j.index) := by
  have h : ImportPretenst.interval_csv_to_dataclass k row jdict = Except.ok
      { index := k, alpha := j, omega := j, type := row.type, strain := st,
        elasticity := el, linear_density := ld, role := row.role, length := len } := by
    unfold ImportPretenst.interval_csv_to_dataclass
    simp only [hsp, hax, hd, hox, hs, he, hl, hn]
  exact ⟨h, by rw [h]; rfl⟩

/-- Witness for C5 at the (3,3) row against the joint set containing
joint 3. -/
theorem equal_endpoints_not_rejected_witness :
    ImportPretenst.interval_csv_to_dataclass 0 ivRow33
      (ImportPretenst.joints_dict [loadedJ3]) = Except.ok
      { index := 0, alpha := loadedJ3, omega := loadedJ3, type := ivRow33.type,
        strain := 0, elasticity := 1, linear_density := 1, role := ivRow33.role,
        length := 10 } ∧
    endpointIndexes (fun iv => iv.alpha.index) (fun iv => iv.omega.index)
      (ImportPretenst.interval_csv_to_dataclass 0 ivRow33
        (ImportPretenst.joints_dict [loadedJ3])) = some (loadedJ3.index, loadedJ3.index) :=
  equal_endpoints_not_rejected 0 ivRow33 (ImportPretenst.joints_dict [loadedJ3])
    "3".data "3".data 3 loadedJ3 0 1 1 10
    (by decide) (by decide) (by decide) (by decide)
    (by decide) (by decide) (by decide) (by decide)

/-- C4 counterexample: a CSV interval whose two joints coincide at the
origin is placed without any failure — create_interval_node returns a
transform (location at the shared point, zero long-axis scale) instead
of failing as the claim requires. -/
theorem degenerate_span_cex :
    ImportPretenst.create_interval_node csvDegenIntv protoSceneX =
      Except.ok { location := ⟨0, 0, 0⟩, rotation := (⟨1, 0, 0⟩, ⟨0, 0, 0⟩),
                  scale := ⟨0, 200, 200⟩ } :=
  csvDegen_eval

/-- C4 (amended, corrected): neither pipeline checks for a zero span;
with a convertible track axis and nonnegative elasticity/stiffness a
coincident-joint interval is placed successfully, and the resulting
translation is the shared joint coordinate itself (the midpoint of a
degenerate span — well defined, no corruption in the modelled exact
arithmetic). -/
theorem degenerate_span_no_failure
    (intvP : ImportPretenst.Interval) (sceneP : PrototypeScene) (v : RVec3)
    (intvJ : ImportJson.Interval) (sceneJ : PrototypeScene) (w : RVec3)
    (hcoP : intvP.alpha.co = intvP.omega.co)
    (hvP : track_axis_to_vector (sceneP.track_axis_of intvP.type) = some v)
    (heP : 0 ≤ intvP.elasticity)
    (hcoJ : intvJ.alpha.co = intvJ.omega.co)
    (hvJ : track_axis_to_vector (sceneJ.track_axis_of intvJ.type) = some w)
    (heJ : 0 ≤ intvJ.stiffness) :
    nodeLocation (ImportPretenst.create_interval_node intvP sceneP) =
      some (toR intvP.alpha.co) ∧
    nodeLocation (ImportJson.create_interval_node intvJ sceneJ) =
      some (toR intvJ.alpha.co) := by
  constructor
  · have h := ImportPretenst.create_eq_ok_csv intvP sceneP v hvP
      (not_lt.mpr (by exact_mod_cast heP))
    rw [h]
    simp only [nodeLocation, Option.some.injEq, ← hcoP, RVec3.lerp]
    simp
  · have h := ImportJson.create_eq_ok_json intvJ sceneJ w hvJ
      (not_lt.mpr (by exact_mod_cast heJ))
    rw [h]
    simp only [nodeLocation, Option.some.injEq, ← hcoJ, RVec3.lerp]
    simp

/-- Witness for C4 at the coincident-joint fixtures of both pipelines. -/
theorem degenerate_span_no_failure_witness :
    nodeLocation (ImportPretenst.create_interval_node csvDegenIntv protoSceneX) =
      some (toR csvDegenIntv.alpha.co) ∧
    nodeLocation (ImportJson.create_interval_node jsonDegenIntv protoSceneX) =
      some (toR jsonDegenIntv.alpha.co) :=
  degenerate_span_no_failure csvDegenIntv protoSceneX ⟨1, 0, 0⟩
    jsonDegenIntv protoSceneX ⟨1, 0, 0⟩
    (by decide) rfl (by decide) (by decide) rfl (by decide)

/-- C1 counterexample: in the JSON pipeline a Push interval spanning
(0,0,0)-(10,0,0) with joint radius 1 is scaled to the full span length
10 on its long axis; the claimed inset length is 8, and 10 is not 8, so
the claim fails for the JSON pipeline. -/
theorem strut_inset_cex :
    ImportJson.create_interval_node jsonPushIntv protoSceneX = Except.ok jsonPushNode ∧
    jsonPushNode.scale.x = 10 ∧
    (RVec3.sub (toR jsonPushIntv.omega.co) (toR jsonPushIntv.alpha.co)).length -
      2 * protoSceneX.joint_scale_x = 8 ∧
    (10 : ℝ) ≠ 8 := by
  refine ⟨jsonPush_eval, rfl, ?_, by norm_num⟩
  simp only [RVec3.sub, toR, RVec3.length, jsonPushIntv, protoSceneX]
  norm_num [sqrt_hundred]

/-- C1 (amended, corrected): with unit baseline prototype scale the
long-axis scale multiplier of a placed interval equals its effective
length; in the CSV pipeline the effective length is the span length
reduced by twice the joint radius exactly when the type tag is Push
(all other tags, recognized or not, keep the plain span length), while
in the JSON pipeline the effective length is always the plain span
length — the Push inset exists only in the CSV pipeline. -/
theorem effective_length_rule
    (intvP : ImportPretenst.Interval) (sceneP : PrototypeScene) (v : RVec3)
    (nodeP : IntervalNode)
    (intvJ : ImportJson.Interval) (sceneJ : PrototypeScene) (w : RVec3)
    (nodeJ : IntervalNode)
    (hvP : track_axis_to_vector (sceneP.track_axis_of intvP.type) = some v)
    (hbP : sceneP.base_scale_of intvP.type = ⟨1, 1, 1⟩)
    (hokP : ImportPretenst.create_interval_node intvP sceneP = Except.ok nodeP)
    (hvJ : track_axis_to_vector (sceneJ.track_axis_of intvJ.type) = some w)
    (hbJ : sceneJ.base_scale_of intvJ.type = ⟨1, 1, 1⟩)
    (hokJ : ImportJson.create_interval_node intvJ sceneJ = Except.ok nodeJ) :
    RVec3.dot v nodeP.scale =
      (if intvP.type = "Push".data
       then (RVec3.sub (toR intvP.omega.co) (toR intvP.alpha.co)).length -
          2 * sceneP.joint_scale_x
       else (RVec3.sub (toR intvP.omega.co) (toR intvP.alpha.co)).length) ∧
    RVec3.dot w nodeJ.scale =
      (RVec3.sub (toR intvJ.omega.co) (toR intvJ.alpha.co)).length := by
  constructor
  · have helP : ¬ ((intvP.elasticity : ℝ) < 0) := by
      intro hlt
      rw [ImportPretenst.create_eq_error_csv intvP sceneP v hvP hlt] at hokP
      exact absurd hokP (by simp)
    rw [ImportPretenst.create_eq_ok_csv intvP sceneP v hvP helP] at hokP
    replace hokP := Except.ok.inj hokP
    rw [← hokP]
    rcases track_axis_cases _ _ hvP with rfl | rfl | rfl <;>
      simp only [hbP, RVec3.dot, RVec3.cmul, RVec3.add, RVec3.smul, RVec3.sub] <;>
      ring_nf
  · have hstJ : ¬ ((intvJ.stiffness : ℝ) < 0) := by
      intro hlt
      rw [ImportJson.create_eq_error_json intvJ sceneJ w hvJ hlt] at hokJ
      exact absurd hokJ (by simp)
    rw [ImportJson.create_eq_ok_json intvJ sceneJ w hvJ hstJ] at hokJ
    replace hokJ := Except.ok.inj hokJ
    rw [← hokJ]
    rcases track_axis_cases _ _ hvJ with rfl | rfl | rfl <;>
      simp only [hbJ, RVec3.dot, RVec3.cmul, RVec3.add, RVec3.smul, RVec3.sub] <;>
      ring_nf

/-- Witness for C1 at the x-axis Push fixtures of both pipelines. -/
theorem effective_length_rule_witness :
    RVec3.dot ⟨1, 0, 0⟩ csvPushNode.scale =
      (if csvPushIntv.type = "Push".data
       then (RVec3.sub (toR csvPushIntv.omega.co) (toR csvPushIntv.alpha.co)).length -
          2 * protoSceneX.joint_scale_x
       else (RVec3.sub (toR csvPushIntv.omega.co) (toR csvPushIntv.alpha.co)).length) ∧
    RVec3.dot ⟨1, 0, 0⟩ jsonPushNode.scale =
      (RVec3.sub (toR jsonPushIntv.omega.co) (toR jsonPushIntv.alpha.co)).length :=
  effective_length_rule csvPushIntv protoSceneX ⟨1, 0, 0⟩ csvPushNode
    jsonPushIntv protoSceneX ⟨1, 0, 0⟩ jsonPushNode
    rfl rfl csvPush_eval rfl rfl jsonPush_eval

/-- C2 (confirmed): with unit baseline prototype scale, each axis of
the computed scale multiplier equals the diameter coefficient times
(1 - axis component) plus the effective length times the axis
component, where the diameter coefficient is the square root of the
stiffness (elasticity in the CSV pipeline) times 200; in particular for
stiffness 4 and reference axis (0,0,1) the multiplier is (400, 400, L)
with L the effective (span) length. -/
theorem scale_multiplier_formula
    (intvP : ImportPretenst.Interval) (sceneP : PrototypeScene) (v : RVec3)
    (nodeP : IntervalNode)
    (intvJ : ImportJson.Interval) (sceneJ : PrototypeScene) (w : RVec3)
    (nodeJ : IntervalNode)
    (hvP : track_axis_to_vector (sceneP.track_axis_of intvP.type) = some v)
    (hbP : sceneP.base_scale_of intvP.type = ⟨1, 1, 1⟩)
    (hokP : ImportPretenst.create_interval_node intvP sceneP = Except.ok nodeP)
    (hvJ : track_axis_to_vector (sceneJ.track_axis_of intvJ.type) = some w)
    (hbJ : sceneJ.base_scale_of intvJ.type = ⟨1, 1, 1⟩)
    (hokJ : ImportJson.create_interval_node intvJ sceneJ = Except.ok nodeJ) :
    (nodeP.scale.x = Real.sqrt (intvP.elasticity : ℝ) * 200 * (1 - v.x) +
        (if intvP.type = "Push".data
         then (RVec3.sub (toR intvP.omega.co) (toR intvP.alpha.co)).length -
            2 * sceneP.joint_scale_x
         else (RVec3.sub (toR intvP.omega.co) (toR intvP.alpha.co)).length) * v.x ∧
     nodeP.scale.y = Real.sqrt (intvP.elasticity : ℝ) * 200 * (1 - v.y) +
        (if intvP.type = "Push".data
         then (RVec3.sub (toR intvP.omega.co) (toR intvP.alpha.co)).length -
            2 * sceneP.joint_scale_x
         else (RVec3.sub (toR intvP.omega.co) (toR intvP.alpha.co)).length) * v.y ∧
     nodeP.scale.z = Real.sqrt (intvP.elasticity : ℝ) * 200 * (1 - v.z) +
        (if intvP.type = "Push".data
         then (RVec3.sub (toR intvP.omega.co) (toR intvP.alpha.co)).length -
            2 * sceneP.joint_scale_x
         else (RVec3.sub (toR intvP.omega.co) (toR intvP.alpha.co)).length) * v.z) ∧
    (nodeJ.scale.x = Real.sqrt (intvJ.stiffness : ℝ) * 200 * (1 - w.x) +
        (RVec3.sub (toR intvJ.omega.co) (toR intvJ.alpha.co)).length * w.x ∧
     nodeJ.scale.y = Real.sqrt (intvJ.stiffness : ℝ) * 200 * (1 - w.y) +
        (RVec3.sub (toR intvJ.omega.co) (toR intvJ.alpha.co)).length * w.y ∧
     nodeJ.scale.z = Real.sqrt (intvJ.stiffness : ℝ) * 200 * (1 - w.z) +
        (RVec3.sub (toR intvJ.omega.co) (toR intvJ.alpha.co)).length * w.z) ∧
    (intvJ.stiffness = 4 → w = ⟨0, 0, 1⟩ →
      nodeJ.scale =
        ⟨400, 400, (RVec3.sub (toR intvJ.omega.co) (toR intvJ.alpha.co)).length⟩) := by
  have helP : ¬ ((intvP.elasticity : ℝ) < 0) := by
    intro hlt
    rw [ImportPretenst.create_eq_error_csv intvP sceneP v hvP hlt] at hokP
    exact absurd hokP (by simp)
  rw [ImportPretenst.create_eq_ok_csv intvP sceneP v hvP helP] at hokP
  replace hokP := Except.ok.inj hokP
  have hstJ : ¬ ((intvJ.stiffness : ℝ) < 0) := by
    intro hlt
    rw [ImportJson.create_eq_error_json intvJ sceneJ w hvJ hlt] at hokJ
    exact absurd hokJ (by simp)
  rw [ImportJson.create_eq_ok_json intvJ sceneJ w hvJ hstJ] at hokJ
  replace hokJ := Except.ok.inj hokJ
  refine ⟨?_, ?_, ?_⟩
  · rw [← hokP]
    simp only [hbP, RVec3.cmul, RVec3.add, RVec3.smul, RVec3.sub]
    refine ⟨by ring, by ring, by ring⟩
  · rw [← hokJ]
    simp only [hbJ, RVec3.cmul, RVec3.add, RVec3.smul, RVec3.sub]
    refine ⟨by ring, by ring, by ring⟩
  · intro h4 hw
    subst hw
    rw [← hokJ]
    simp only [hbJ, RVec3.cmul, RVec3.add, RVec3.smul, RVec3.sub, h4,
      RVec3.mk.injEq]
    norm_num [sqrt_four]

/-- Witness for C2 at the z-axis stiffness-4 JSON fixture together
with the x-axis CSV Push fixture. -/
theorem scale_multiplier_formula_witness :
    (csvPushNode.scale.x = Real.sqrt (csvPushIntv.elasticity : ℝ) * 200 * (1 - (1 : ℝ)) +
        (if csvPushIntv.type = "Push".data
         then (RVec3.sub (toR csvPushIntv.omega.co) (toR csvPushIntv.alpha.co)).length -
            2 * protoSceneX.joint_scale_x
         else (RVec3.sub (toR csvPushIntv.omega.co) (toR csvPushIntv.alpha.co)).length) *
          (1 : ℝ)) ∧
    jsonZNode.scale =
      ⟨400, 400, (RVec3.sub (toR jsonZIntv.omega.co) (toR jsonZIntv.alpha.co)).length⟩ := by
  have h := scale_multiplier_formula csvPushIntv protoSceneX ⟨1, 0, 0⟩ csvPushNode
    jsonZIntv protoSceneZ ⟨0, 0, 1⟩ jsonZNode
    rfl rfl csvPush_eval rfl rfl jsonZ_eval
  exact ⟨h.1.1, h.2.2 (by decide) rfl⟩

/-- C10 (confirmed): the diameter coefficient takes the square root of
the stiffness/elasticity, so placement is defined exactly on
nonnegative values: with a convertible track axis, a nonnegative value
places successfully, while a negative value aborts with the math-domain
arithmetic error and returns no transform, in both pipelines. -/
theorem sqrt_domain_guard
    (intvP : ImportPretenst.Interval) (sceneP : PrototypeScene)
    (intvJ : ImportJson.Interval) (sceneJ : PrototypeScene)
    (hvP : ∃ v, track_axis_to_vector (sceneP.track_axis_of intvP.type) = some v)
    (hvJ : ∃ w, track_axis_to_vector (sceneJ.track_axis_of intvJ.type) = some w) :
    (0 ≤ intvP.elasticity →
      exceptIsOk (ImportPretenst.create_interval_node intvP sceneP) = true) ∧
    (intvP.elasticity < 0 →
      ImportPretenst.create_interval_node intvP sceneP =
        Except.error PlaceError.mathDomainError) ∧
    (0 ≤ intvJ.stiffness →
      exceptIsOk (ImportJson.create_interval_node intvJ sceneJ) = true) ∧
    (intvJ.stiffness < 0 →
      ImportJson.create_interval_node intvJ sceneJ =
        Except.error PlaceError.mathDomainError) := by
  obtain ⟨v, hv⟩ := hvP
  obtain ⟨w, hw⟩ := hvJ
  refine ⟨?_, ?_, ?_, ?_⟩
  · intro h
    rw [ImportPretenst.create_eq_ok_csv intvP sceneP v hv
      (not_lt.mpr (by exact_mod_cast h))]
    rfl
  · intro h
    exact ImportPretenst.create_eq_error_csv intvP sceneP v hv (by exact_mod_cast h)
  · intro h
    rw [ImportJson.create_eq_ok_json intvJ sceneJ w hw
      (not_lt.mpr (by exact_mod_cast h))]
    rfl
  · intro h
    exact ImportJson.create_eq_error_json intvJ sceneJ w hw (by exact_mod_cast h)

/-- Witness for C10: elasticity/stiffness 1 places successfully,
elasticity/stiffness -1 aborts with the math domain error. -/
theorem sqrt_domain_guard_witness :
    exceptIsOk (ImportPretenst.create_interval_node csvPushIntv protoSceneX) = true ∧
    ImportPretenst.create_interval_node csvNegIntv protoSceneX =
      Except.error PlaceError.mathDomainError ∧
    exceptIsOk (ImportJson.create_interval_node jsonPushIntv protoSceneX) = true ∧
    ImportJson.create_interval_node jsonNegIntv protoSceneX =
      Except.error PlaceError.mathDomainError := by
  refine ⟨?_, ?_, ?_, ?_⟩
  · exact (sqrt_domain_guard csvPushIntv protoSceneX jsonPushIntv protoSceneX
      ⟨_, rfl⟩ ⟨_, rfl⟩).1 (by decide)
  · exact (sqrt_domain_guard csvNegIntv protoSceneX jsonNegIntv protoSceneX
      ⟨_, rfl⟩ ⟨_, rfl⟩).2.1 (by decide)
  · exact (sqrt_domain_guard csvPushIntv protoSceneX jsonPushIntv protoSceneX
      ⟨_, rfl⟩ ⟨_, rfl⟩).2.2.1 (by decide)
  · exact (sqrt_domain_guard csvNegIntv protoSceneX jsonNegIntv protoSceneX
      ⟨_, rfl⟩ ⟨_, rfl⟩).2.2.2 (by decide)
